import Mathlib

/-!
Verification of the reverse-proxy-service operation-execution pipeline.

Shallow embedding of:
- `src/providers/openliga.py` (RateLimiter, OpenLigaProvider: retry loop,
  rate limiting, the four operation mappings),
- `src/proxy/decision_mapper.py` (DecisionMapper.execute_operation),
- `src/proxy/schemas.py` (pydantic response schemas, modelled as validators).

Python JSON values are modelled by the inductive `Json`; numbers are `Int`
(the fields the pipeline touches are integral); time and delays are `ℚ`.
-/

namespace ReverseProxy

/-- JSON value as produced by `response.json()` in the adapter. -/
inductive Json where
  | null
  | bool (b : Bool)
  | num (n : Int)
  | str (s : String)
  | arr (xs : List Json)
  | obj (fields : List (String × Json))

/-- Python truthiness (`if x:` / `not x`) restricted to JSON values. -/
def Json.truthy : Json → Bool
  | .null => false
  | .bool b => b
  | .num n => n != 0
  | .str s => !(s == "")
  | .arr xs => !xs.isEmpty
  | .obj fs => !fs.isEmpty

/-- Python `dict.get(key, default)` on a JSON object's field list. -/
def jsonGet (fs : List (String × Json)) (key : String) (default : Json) : Json :=
  match fs.find? (fun p => p.1 == key) with
  | some p => p.2
  | none => default

/-- Whether a key is present in a JSON object's field list. -/
def hasKey (fs : List (String × Json)) (key : String) : Bool :=
  (fs.find? (fun p => p.1 == key)).isSome

/-- Keep the elements of a JSON array that are objects (the
`isinstance(x, dict)` guards in the provider's list mappings). -/
def dictElems : List Json → List (List (String × Json))
  | [] => []
  | .obj fs :: rest => fs :: dictElems rest
  | _ :: rest => dictElems rest

def Json.isObj : Json → Bool
  | .obj _ => true
  | _ => false

def Json.isArr : Json → Bool
  | .arr _ => true
  | _ => false

def Json.isNum : Json → Bool
  | .num _ => true
  | _ => false

def Json.isStr : Json → Bool
  | .str _ => true
  | _ => false

/-! ## Provider mapping layer (`src/providers/openliga.py` lines 154-324) -/

/-- Intermediate team dict built by the adapter (values are raw upstream
JSON, defaults substituted for missing keys). -/
structure RawTeam where
  team_id : Json
  name : Json
  short_name : Json
  icon_url : Json

/-- Intermediate final-score dict; `match_status` is always one of the
Python string literals "scheduled"/"finished"/"in_progress". -/
structure RawScore where
  home : Json
  away : Json
  match_status : String

/-- Intermediate match dict built by `get_league_matches` / `get_match`. -/
structure RawMatch where
  match_id : Json
  league_name : Json
  match_date_time : Json
  team_home : RawTeam
  team_away : RawTeam
  final_score : RawScore
  is_finished : Json

/-- Intermediate league dict built by `list_leagues`. -/
structure RawLeague where
  id : Json
  name : Json
  shortcut : Json
  country : Json
  current_season : Json

/-- `team_home = match.get("team1", {})`, coerced to `{}` when not a dict
(openliga.py lines 186-193), then field extraction with defaults. -/
def extractTeam (v : Json) : RawTeam :=
  let fs := match v with
    | .obj fs => fs
    | _ => []
  ⟨jsonGet fs "teamId" (.num 0), jsonGet fs "teamName" (.str ""),
   jsonGet fs "shortName" (.str ""), jsonGet fs "teamIconUrl" .null⟩

/-- Default score: `{"home": 0, "away": 0, "match_status": "scheduled"}`. -/
def defaultScore : RawScore := ⟨.num 0, .num 0, "scheduled"⟩

/-- Final-score extraction (openliga.py lines 195-213, duplicated at lines
290-301): the default is replaced only when `matchResults` is a non-empty
list whose last element is a dict; status is "finished" when the
`matchIsFinished` value is truthy, else "in_progress". -/
def extractFinalScore (fs : List (String × Json)) : RawScore :=
  let mr := jsonGet fs "matchResults" (.arr [])
  match mr with
  | .arr (x :: xs) =>
    match (x :: xs).getLastD .null with
    | .obj g =>
      ⟨jsonGet g "pointsTeam1" (.num 0), jsonGet g "pointsTeam2" (.num 0),
       if (jsonGet fs "matchIsFinished" .null).truthy then "finished" else "in_progress"⟩
    | _ => defaultScore
  | _ => defaultScore

/-- One match dict of the adapter output (openliga.py lines 215-235 and
303-321); `leagueName` is the value placed in the `league_name` slot:
the shortcut argument in `get_league_matches`, the upstream `leagueName`
field in `get_match`. -/
def buildRawMatch (leagueName : Json) (fs : List (String × Json)) : RawMatch :=
  ⟨jsonGet fs "matchID" (.num 0), leagueName, jsonGet fs "matchDateTime" (.str ""),
   extractTeam (jsonGet fs "team1" (.obj [])), extractTeam (jsonGet fs "team2" (.obj [])),
   extractFinalScore fs, jsonGet fs "matchIsFinished" (.bool false)⟩

/-- `OpenLigaProvider.list_leagues` mapping of the parsed upstream body
(openliga.py lines 159-173). -/
def list_leagues (data : Json) : List RawLeague :=
  match data with
  | .arr xs => (dictElems xs).map (fun fs =>
      ⟨jsonGet fs "leagueId" (.num 0), jsonGet fs "leagueName" (.str ""),
       jsonGet fs "leagueShortcut" (.str ""), jsonGet fs "country" (.str ""),
       jsonGet fs "leagueSeason" (.str "")⟩)
  | _ => []

/-- `OpenLigaProvider.get_league_matches` mapping (openliga.py lines
182-237); `league_season` only appears in the request URL. -/
def get_league_matches (league_shortcut league_season : String) (data : Json) :
    List RawMatch :=
  match data with
  | .arr xs => (dictElems xs).map (buildRawMatch (.str league_shortcut))
  | _ => []

/-- `OpenLigaProvider.get_team` mapping (openliga.py lines 248-263). -/
def get_team (data : Json) : RawTeam :=
  match data with
  | .obj fs =>
    ⟨jsonGet fs "teamId" (.num 0), jsonGet fs "teamName" (.str ""),
     jsonGet fs "shortName" (.str ""), jsonGet fs "teamIconUrl" .null⟩
  | _ => ⟨.num 0, .str "", .str "", .null⟩

/-- The element `get_match` resolves from the upstream body: the first
element of a non-empty array, or the object itself (openliga.py lines
273-277). -/
def resolveMatch (data : Json) : Option Json :=
  match data with
  | .arr (x :: _) => some x
  | .obj fs => some (.obj fs)
  | _ => none

/-- `OpenLigaProvider.get_match` (openliga.py lines 265-323): raises
"Match not found" (modelled as `.error`) when the body is falsy, when no
element resolves, or when the resolved element is not a truthy dict. -/
def get_match (data : Json) : Except String RawMatch :=
  if !data.truthy then .error "Match not found"
  else
    match resolveMatch data with
    | some (.obj fs) =>
      if (Json.obj fs).truthy then
        .ok (buildRawMatch (jsonGet fs "leagueName" (.str "")) fs)
      else .error "Match not found"
    | _ => .error "Match not found"

/-! ## Rate limiter (`src/providers/openliga.py` lines 13-40)

Timestamps are rationals (`time.time()` values). The recorded-state
evolution of `RateLimiter.acquire` is modelled by the inductive relation
`GrantTrace`: under the lock each call first prunes entries older than
`time_window`; a call appends its own timestamp only when fewer than
`max_requests` pruned entries remain, otherwise it only prunes and waits.
`GrantTrace rl t adm s` says: after a sequence of acquire activity whose
latest wall-clock instant is `t`, the admitted call times are the list
`adm` (in order) and `self.requests` is `s`. -/

structure RateLimiter where
  max_requests : Nat
  time_window : ℚ

/-- Lines 27-31: `self.requests = [r for r in self.requests if now - r < self.time_window]`. -/
def prune (time_window now : ℚ) (reqs : List ℚ) : List ℚ :=
  reqs.filter (fun t => decide (now - t < time_window))

/-- Line 35: `sleep_time = self.time_window - (now - self.requests[0]) + 0.1`. -/
def rlSleepTime (rl : RateLimiter) (now : ℚ) (reqs : List ℚ) : ℚ :=
  rl.time_window - (now - reqs.headD 0) + 1 / 10

/-- Admission traces of the rate limiter: clock is monotone; a grant step
prunes, requires the pruned count to be below `max_requests`, and appends
`now`; a blocked (or merely pruning) step prunes without appending. -/
inductive GrantTrace (rl : RateLimiter) : ℚ → List ℚ → List ℚ → Prop
  | nil (t0 : ℚ) : GrantTrace rl t0 [] []
  | grant (t t' : ℚ) (adm s : List ℚ) :
      GrantTrace rl t adm s → t ≤ t' →
      (prune rl.time_window t' s).length < rl.max_requests →
      GrantTrace rl t' (adm ++ [t']) (prune rl.time_window t' s ++ [t'])
  | pruneOnly (t t' : ℚ) (adm s : List ℚ) :
      GrantTrace rl t adm s → t ≤ t' →
      GrantTrace rl t' adm (prune rl.time_window t' s)

/-! ## The lock discipline of `RateLimiter.acquire` (lines 22-38)

`acquire` takes the non-reentrant `asyncio.Lock`, and when the window is
full it sleeps and re-invokes itself while still holding the lock: the
`await asyncio.sleep(...)` and the recursive `await self.acquire()` are
textually inside the `async with self.lock:` block. The control flow of
one invocation is a small state machine; two concurrent callers A and B
are interleaved by `LockStep`. -/

inductive AcqPc where
  | entry      -- about to execute `async with self.lock:` (awaits the lock)
  | holding    -- lock held; pruning and checking the window
  | sleeping   -- window full: `await asyncio.sleep(...)` with the lock held
  | reacquire  -- sleep over: `return await self.acquire()` awaits the lock again
  | done       -- appended `now` and released the lock
  deriving DecidableEq

/-- Two concurrent callers (`false` = A, `true` = B) plus the lock owner. -/
structure LockSys where
  holder : Option Bool
  pcA : AcqPc
  pcB : AcqPc
  deriving DecidableEq

def LockSys.pc (s : LockSys) (i : Bool) : AcqPc :=
  if i then s.pcB else s.pcA

def LockSys.withPc (s : LockSys) (i : Bool) (p : AcqPc) : LockSys :=
  if i then { s with pcB := p } else { s with pcA := p }

def LockSys.withHolder (s : LockSys) (h : Option Bool) : LockSys :=
  { s with holder := h }

/-- Interleaving semantics of two concurrent `acquire()` invocations.
`asyncio.Lock` is not reentrant: a task takes it only when nobody holds
it, even when the waiter is the holder itself. -/
inductive LockStep : LockSys → LockSys → Prop
  | take (s : LockSys) (i : Bool) :
      s.holder = none → (s.pc i = .entry ∨ s.pc i = .reacquire) →
      LockStep s ((s.withPc i .holding).withHolder (some i))
  | grantRelease (s : LockSys) (i : Bool) :
      s.holder = some i → s.pc i = .holding →
      LockStep s ((s.withPc i .done).withHolder none)
  | windowFull (s : LockSys) (i : Bool) :
      s.holder = some i → s.pc i = .holding →
      LockStep s (s.withPc i .sleeping)
  | wakeRetry (s : LockSys) (i : Bool) :
      s.pc i = .sleeping →
      LockStep s (s.withPc i .reacquire)

/-- Caller A sleeps in the full-window branch (or retries after it) while
holding the lock, and caller B is waiting to enter `acquire()`. -/
def BlockedOnSelf (s : LockSys) : Prop :=
  s.holder = some false ∧ (s.pcA = .sleeping ∨ s.pcA = .reacquire) ∧ s.pcB = .entry

/-! ## Retry loop of `_make_request` (`src/providers/openliga.py` lines 72-152) -/

/-- Retry configuration read in `__init__` (lines 54-58). -/
structure RetryPolicy where
  max_retries : Nat
  base_delay : ℚ
  max_delay : ℚ
  backoff_multiplier : ℚ
  jitter_range : ℚ

/-- Lines 106-109: `delay = min(base_delay * backoff_multiplier**attempt, max_delay)`. -/
def backoffDelay (p : RetryPolicy) (attempt : Nat) : ℚ :=
  min (p.base_delay * p.backoff_multiplier ^ attempt) p.max_delay

/-- Lines 110-113: `sleep_time = max(0, delay + jitter)` with
`jitter = random.uniform(-jitter_range, jitter_range) * delay`; the
sampled uniform value is the parameter `jitterSample`. -/
def sleepTime (p : RetryPolicy) (attempt : Nat) (jitterSample : ℚ) : ℚ :=
  max 0 (backoffDelay p attempt + jitterSample * backoffDelay p attempt)

/-- Outcome of one `self.session.request(...)` call as seen by the loop:
a status code with a parsed body, or a raised `RequestException`. -/
inductive UpstreamOutcome where
  | status (code : Nat) (body : Json)
  | transportError (msg : String)

/-- Result of `_make_request`: parsed 200 body, or a raised `Exception`. -/
inductive RequestResult where
  | success (body : Json)
  | failure (msg : String)

/-- Observable trace of one `_make_request` invocation: final result,
number of loop attempts issued, and the backoff sleeps performed. -/
structure RequestTrace where
  result : RequestResult
  attempts : Nat
  sleeps : List ℚ

/-- Line 102: `status_code in [429, 500, 502, 503, 504]`. -/
def retryableStatus (s : Nat) : Bool :=
  s == 429 || s == 500 || s == 502 || s == 503 || s == 504

/-- The `for attempt in range(self.max_retries + 1)` loop (lines 78-152).
`outcomes i` is what the i-th `session.request` call yields, `jit i` the
i-th `random.uniform(-jitter_range, jitter_range)` sample; `fuel` is the
number of loop iterations remaining (`max_retries + 1 - attempt`). -/
def makeRequestAux (p : RetryPolicy) (outcomes : Nat → UpstreamOutcome)
    (jit : Nat → ℚ) : Nat → Nat → RequestTrace
  | _, 0 => ⟨.failure "Max retries exceeded", 0, []⟩
  | attempt, fuel + 1 =>
    match outcomes attempt with
    | .status code body =>
      if code == 200 then ⟨.success body, 1, []⟩
      else if retryableStatus code && decide (attempt < p.max_retries) then
        let s := sleepTime p attempt (jit attempt)
        let rest := makeRequestAux p outcomes jit (attempt + 1) fuel
        ⟨rest.result, rest.attempts + 1, s :: rest.sleeps⟩
      else ⟨.failure "Upstream API failed with status", 1, []⟩
    | .transportError e =>
      if decide (attempt < p.max_retries) then
        let s := sleepTime p attempt (jit attempt)
        let rest := makeRequestAux p outcomes jit (attempt + 1) fuel
        ⟨rest.result, rest.attempts + 1, s :: rest.sleeps⟩
      else ⟨.failure ("Upstream API request failed: " ++ e), 1, []⟩

/-- `_make_request` with session-level outcomes. -/
def makeRequest (p : RetryPolicy) (outcomes : Nat → UpstreamOutcome)
    (jit : Nat → ℚ) : RequestTrace :=
  makeRequestAux p outcomes jit 0 (p.max_retries + 1)

/-! ## Wire level: the mounted `HTTPAdapter(max_retries=Retry(total=2, ...))`

`__init__` (lines 60-70) mounts a urllib3 `Retry(total=2,
status_forcelist=[429, 500, 502, 503, 504], raise_on_status=False)` on
the session, so a single `session.request` call may transparently issue
up to 2 further HTTP attempts on a forcelisted status or a connection
error, returning the last response (or raising after exhaustion). -/

/-- One on-the-wire HTTP attempt outcome. -/
inductive HttpOutcome where
  | resp (status : Nat) (body : Json)
  | connError (msg : String)

/-- What `session.request` yields to the loop after internal retries. -/
inductive SessionResult where
  | resp (status : Nat) (body : Json)
  | exn (msg : String)

/-- urllib3 retry loop for one `session.request`: `wire` is the stream of
on-the-wire attempt outcomes, `idx` the next wire attempt index, `fuel`
the number of HTTP attempts still allowed (`total + 1 = 3` initially).
Returns the session result and the number of wire attempts consumed. -/
def sessionLoop (wire : Nat → HttpOutcome) (idx : Nat) : Nat → SessionResult × Nat
  | 0 => (.exn "max retries exceeded", 0)
  | fuel + 1 =>
    match wire idx with
    | .resp s b =>
      if retryableStatus s && decide (0 < fuel) then
        let r := sessionLoop wire (idx + 1) fuel
        (r.1, r.2 + 1)
      else (.resp s b, 1)
    | .connError m =>
      if decide (0 < fuel) then
        let r := sessionLoop wire (idx + 1) fuel
        (r.1, r.2 + 1)
      else (.exn m, 1)

/-- `Retry(total=2)`: at most 3 HTTP attempts per `session.request`. -/
def sessionRequest (wire : Nat → HttpOutcome) (idx : Nat) : SessionResult × Nat :=
  sessionLoop wire idx 3

/-- Wire-level observable trace of `_make_request`: result, number of
`session.request` invocations, and total HTTP attempts on the wire. -/
structure WireTrace where
  result : RequestResult
  sessionCalls : Nat
  wireAttempts : Nat

/-- The `_make_request` loop with each `session.request` expanded into
its internal urllib3 retries (backoff sleeps are not tracked here). -/
def makeRequestWireAux (p : RetryPolicy) (wire : Nat → HttpOutcome) :
    Nat → Nat → Nat → WireTrace
  | _, _, 0 => ⟨.failure "Max retries exceeded", 0, 0⟩
  | idx, attempt, fuel + 1 =>
    let r := sessionRequest wire idx
    match r.1 with
    | .resp code body =>
      if code == 200 then ⟨.success body, 1, r.2⟩
      else if retryableStatus code && decide (attempt < p.max_retries) then
        let rest := makeRequestWireAux p wire (idx + r.2) (attempt + 1) fuel
        ⟨rest.result, rest.sessionCalls + 1, rest.wireAttempts + r.2⟩
      else ⟨.failure "Upstream API failed with status", 1, r.2⟩
    | .exn e =>
      if decide (attempt < p.max_retries) then
        let rest := makeRequestWireAux p wire (idx + r.2) (attempt + 1) fuel
        ⟨rest.result, rest.sessionCalls + 1, rest.wireAttempts + r.2⟩
      else ⟨.failure ("Upstream API request failed: " ++ e), 1, r.2⟩

/-- `_make_request` at wire level. -/
def makeRequestWire (p : RetryPolicy) (wire : Nat → HttpOutcome) : WireTrace :=
  makeRequestWireAux p wire 0 0 (p.max_retries + 1)

/-! ## Normalization schemas (`src/proxy/schemas.py`)

pydantic response models are modelled as validators from the adapter's
intermediate records to fully-typed normalized records, plus `dump`
functions standing for `model_dump()`. A raw JSON value validates as an
`int`/`str`/`bool` field only when it is of that shape; `Optional[str]`
accepts null; `Union[datetime, str]` accepts a string or a numeric
timestamp. -/

def asInt : Json → Option Int
  | .num n => some n
  | _ => none

def asStr : Json → Option String
  | .str s => some s
  | _ => none

def asOptStr : Json → Option (Option String)
  | .null => some none
  | .str s => some (some s)
  | _ => none

def asBool : Json → Option Bool
  | .bool b => some b
  | _ => none

/-- Validated `date_time: Union[datetime, str]` value. -/
inductive DateVal where
  | fromStr (v : String)
  | fromNum (v : Int)

def asDateVal : Json → Option DateVal
  | .str s => some (.fromStr s)
  | .num n => some (.fromNum n)
  | _ => none

def DateVal.dump : DateVal → Json
  | .fromStr v => .str v
  | .fromNum v => .num v

/-- Normalized `TeamDetail` (schemas.py lines 38-42). -/
structure TeamDetailN where
  id : Int
  name : String
  short_name : String
  icon_url : Option String

/-- Normalized `MatchScore` (schemas.py lines 45-48). -/
structure MatchScoreN where
  home : Int
  away : Int
  status : String

/-- Normalized `MatchDetail` (schemas.py lines 51-58). -/
structure MatchDetailN where
  id : Int
  league_name : String
  date_time : DateVal
  team_home : TeamDetailN
  team_away : TeamDetailN
  score : MatchScoreN
  is_finished : Bool

/-- Normalized `LeagueSummary` (schemas.py lines 30-35). -/
structure LeagueSummaryN where
  id : Int
  name : String
  shortcut : String
  country : String
  season : String

def validateTeamDetail (r : RawTeam) : Option TeamDetailN := do
  let i ← asInt r.team_id
  let n ← asStr r.name
  let sn ← asStr r.short_name
  let ic ← asOptStr r.icon_url
  pure ⟨i, n, sn, ic⟩

def validateMatchScore (r : RawScore) : Option MatchScoreN := do
  let h ← asInt r.home
  let a ← asInt r.away
  pure ⟨h, a, r.match_status⟩

def validateMatchDetail (r : RawMatch) : Option MatchDetailN := do
  let i ← asInt r.match_id
  let ln ← asStr r.league_name
  let dt ← asDateVal r.match_date_time
  let th ← validateTeamDetail r.team_home
  let ta ← validateTeamDetail r.team_away
  let sc ← validateMatchScore r.final_score
  let fin ← asBool r.is_finished
  pure ⟨i, ln, dt, th, ta, sc, fin⟩

def validateLeagueSummary (r : RawLeague) : Option LeagueSummaryN := do
  let i ← asInt r.id
  let n ← asStr r.name
  let sh ← asStr r.shortcut
  let c ← asStr r.country
  let se ← asStr r.current_season
  pure ⟨i, n, sh, c, se⟩

def dumpOptStr : Option String → Json
  | none => .null
  | some s => .str s

def TeamDetailN.dump (t : TeamDetailN) : Json :=
  .obj [("id", .num t.id), ("name", .str t.name),
        ("short_name", .str t.short_name), ("icon_url", dumpOptStr t.icon_url)]

def MatchScoreN.dump (s : MatchScoreN) : Json :=
  .obj [("home", .num s.home), ("away", .num s.away), ("status", .str s.status)]

def MatchDetailN.dump (m : MatchDetailN) : Json :=
  .obj [("id", .num m.id), ("league_name", .str m.league_name),
        ("date_time", m.date_time.dump), ("team_home", m.team_home.dump),
        ("team_away", m.team_away.dump), ("score", m.score.dump),
        ("is_finished", .bool m.is_finished)]

def LeagueSummaryN.dump (l : LeagueSummaryN) : Json :=
  .obj [("id", .num l.id), ("name", .str l.name), ("shortcut", .str l.shortcut),
        ("country", .str l.country), ("season", .str l.season)]

/-! ## Dispatcher (`src/proxy/decision_mapper.py`) -/

/-- The operation registry keys (decision_mapper.py lines 24-52). -/
inductive OpType where
  | listLeaguesOp
  | getLeagueMatchesOp
  | getTeamOp
  | getMatchOp
  deriving DecidableEq

/-- Registry lookup: `operation_type in self.operation_map`. -/
def parseOp (s : String) : Option OpType :=
  if s == "ListLeagues" then some .listLeaguesOp
  else if s == "GetLeagueMatches" then some .getLeagueMatchesOp
  else if s == "GetTeam" then some .getTeamOp
  else if s == "GetMatch" then some .getMatchOp
  else none

def validOperations : List String :=
  ["ListLeagues", "GetLeagueMatches", "GetTeam", "GetMatch"]

/-- Validated payload (schemas.py lines 12-26): `ListLeaguesPayload` has
no fields; `GetLeagueMatchesPayload` two required strings; `GetTeamPayload`
and `GetMatchPayload` one required integer. -/
inductive PayloadV where
  | emptyPayload
  | leagueMatchesPayload (league_shortcut league_season : String)
  | idPayload (id : Int)

/-- pydantic payload validation per operation; a missing key or a value of
the wrong shape fails. -/
def validatePayload (op : OpType) (payload : List (String × Json)) : Option PayloadV :=
  match op with
  | .listLeaguesOp => some .emptyPayload
  | .getLeagueMatchesOp => do
    let sc ← asStr (jsonGet payload "league_shortcut" .null)
    let se ← asStr (jsonGet payload "league_season" .null)
    pure (.leagueMatchesPayload sc se)
  | .getTeamOp => do
    let i ← asInt (jsonGet payload "team_id" .null)
    pure (.idPayload i)
  | .getMatchOp => do
    let i ← asInt (jsonGet payload "match_id" .null)
    pure (.idPayload i)

/-- Raw provider response, one constructor per operation, wrapping the
adapter's intermediate records (each provider method returns its record
under the operation's output key). -/
inductive RawResponse where
  | leaguesR (xs : List RawLeague)
  | matchesR (xs : List RawMatch)
  | teamR (t : RawTeam)
  | matchR (m : RawMatch)

/-- The provider-method invocation (decision_mapper.py lines 106-135):
`upstream` is the outcome of `_make_request` (parsed body or raised
exception); any exception — from `_make_request` or from the adapter's
own "Match not found" — propagates as `.error`. -/
def providerCall (op : OpType) (pv : PayloadV) (upstream : Except String Json) :
    Except String RawResponse :=
  match upstream with
  | .error m => .error m
  | .ok data =>
    match op, pv with
    | .listLeaguesOp, _ => .ok (.leaguesR (list_leagues data))
    | .getLeagueMatchesOp, .leagueMatchesPayload sc se =>
      .ok (.matchesR (get_league_matches sc se data))
    | .getLeagueMatchesOp, _ => .error "invalid arguments"
    | .getTeamOp, _ => .ok (.teamR (get_team data))
    | .getMatchOp, _ => (get_match data).map .matchR

/-- Response normalization (decision_mapper.py lines 137-148): run the
provider response through the operation's response schema and dump it. -/
def normalizeResponse (r : RawResponse) : Option Json :=
  match r with
  | .leaguesR xs => do
    let ls ← xs.mapM validateLeagueSummary
    pure (.obj [("leagues", .arr (ls.map LeagueSummaryN.dump))])
  | .matchesR xs => do
    let ms ← xs.mapM validateMatchDetail
    pure (.obj [("matches", .arr (ms.map MatchDetailN.dump))])
  | .teamR t => do
    let tv ← validateTeamDetail t
    pure (.obj [("team", tv.dump)])
  | .matchR m => do
    let mv ← validateMatchDetail m
    pure (.obj [("match", mv.dump)])

/-- Result of `execute_operation`: a normalized response dict, or an
error dict `{"error": ..., "code": ..., "details": ...}`. -/
inductive ExecResult where
  | success (body : Json)
  | failure (error : String) (code : String) (details : Json)

/-- Stage 4 (decision_mapper.py lines 137-163): normalization failure is
an INTERNAL_ERROR. -/
def normalizeStage (raw : RawResponse) : ExecResult :=
  match normalizeResponse raw with
  | none => .failure "Internal response normalization error" "INTERNAL_ERROR"
      (.obj [("message", .str "Provider response format unexpected")])
  | some body => .success body

/-- Stage 3 (decision_mapper.py lines 108-135): provider exceptions become
UPSTREAM_ERROR with the exception text in the details. -/
def executeValidated (op : OpType) (pv : PayloadV) (upstream : Except String Json) :
    ExecResult :=
  match providerCall op pv upstream with
  | .error m => .failure "Upstream API failed" "UPSTREAM_ERROR" (.obj [("message", .str m)])
  | .ok raw => normalizeStage raw

/-- Stage 2 (decision_mapper.py lines 78-104): pydantic payload validation;
the per-field error list of the Python code is abstracted to an empty
list (no claim inspects it). -/
def executeKnown (op : OpType) (payload : List (String × Json))
    (upstream : Except String Json) : ExecResult :=
  match validatePayload op payload with
  | none => .failure "Payload validation failed" "VALIDATION_ERROR"
      (.obj [("validation_errors", .arr [])])
  | some pv => executeValidated op pv upstream

/-- `DecisionMapper.execute_operation` (decision_mapper.py lines 54-163). -/
def execute_operation (opStr : String) (payload : List (String × Json))
    (upstream : Except String Json) : ExecResult :=
  match parseOp opStr with
  | none => .failure ("Unknown operationType: " ++ opStr) "UNKNOWN_OPERATION"
      (.obj [("valid_operations", .arr (validOperations.map Json.str))])
  | some op => executeKnown op payload upstream

/-- Top-level keys of a JSON value (empty for non-objects). -/
def topKeys : Json → List String
  | .obj fs => fs.map Prod.fst
  | _ => []

/-- The declared output key of each operation (schemas.py lines 64-77). -/
def outputKey : OpType → String
  | .listLeaguesOp => "leagues"
  | .getLeagueMatchesOp => "matches"
  | .getTeamOp => "team"
  | .getMatchOp => "match"

/-! ## Schema conformance (required fields of the output schemas)

`fieldIs fs k p` holds when key `k` is present and its value satisfies
`p`; the conformance predicates check every required field of the
corresponding schema in `src/proxy/schemas.py` (fields with defaults,
such as `icon_url`, are not required). -/

def fieldIs (fs : List (String × Json)) (k : String) (p : Json → Bool) : Bool :=
  match fs.find? (fun q => q.1 == k) with
  | some q => p q.2
  | none => false

def Json.isDateLike : Json → Bool
  | .str _ => true
  | .num _ => true
  | _ => false

def Json.isBoolJ : Json → Bool
  | .bool _ => true
  | _ => false

def teamConforms : Json → Bool
  | .obj fs =>
    fieldIs fs "id" Json.isNum && fieldIs fs "name" Json.isStr &&
    fieldIs fs "short_name" Json.isStr
  | _ => false

def scoreConforms : Json → Bool
  | .obj fs =>
    fieldIs fs "home" Json.isNum && fieldIs fs "away" Json.isNum &&
    fieldIs fs "status" Json.isStr
  | _ => false

def matchConforms : Json → Bool
  | .obj fs =>
    fieldIs fs "id" Json.isNum && fieldIs fs "league_name" Json.isStr &&
    fieldIs fs "date_time" Json.isDateLike && fieldIs fs "team_home" teamConforms &&
    fieldIs fs "team_away" teamConforms && fieldIs fs "score" scoreConforms &&
    fieldIs fs "is_finished" Json.isBoolJ
  | _ => false

def leagueConforms : Json → Bool
  | .obj fs =>
    fieldIs fs "id" Json.isNum && fieldIs fs "name" Json.isStr &&
    fieldIs fs "shortcut" Json.isStr && fieldIs fs "country" Json.isStr &&
    fieldIs fs "season" Json.isStr
  | _ => false

def allConform (p : Json → Bool) : Json → Bool
  | .arr xs => xs.all p
  | _ => false

/-- A successful response body satisfies every required field of the
operation's declared output schema. -/
def responseConforms (op : OpType) : Json → Bool
  | .obj fs =>
    match op with
    | .listLeaguesOp => fieldIs fs "leagues" (allConform leagueConforms)
    | .getLeagueMatchesOp => fieldIs fs "matches" (allConform matchConforms)
    | .getTeamOp => fieldIs fs "team" teamConforms
    | .getMatchOp => fieldIs fs "match" matchConforms
  | _ => false

/-- The "not found" inputs described for `GetMatch`: an empty payload, a
payload that is neither array nor object, or a payload whose resolved
element (first element of an array, or the object itself) is not an
object. -/
def notFoundInput (data : Json) : Prop :=
  data = .arr [] ∨ data = .obj [] ∨ (data.isArr = false ∧ data.isObj = false)
  ∨ (∀ r, resolveMatch data = some r → r.isObj = false)

/-- The output key a raw provider response is wrapped under. -/
def rawKey : RawResponse → String
  | .leaguesR _ => "leagues"
  | .matchesR _ => "matches"
  | .teamR _ => "team"
  | .matchR _ => "match"

/-! # Theorems -/

/-- `dict.get` returns the default when the key is absent. -/
theorem jsonGet_not_found (fs : List (String × Json)) (k : String) (d : Json)
    (h : hasKey fs k = false) : jsonGet fs k d = d := by
  unfold hasKey at h
  unfold jsonGet
  cases hf : fs.find? (fun p => p.1 == k) with
  | none => rfl
  | some q => rw [hf] at h; simp at h

/-- C8: for every `GetTeam` upstream response that is not an object the
adapter returns the all-defaults team record; for an object response each
missing field individually falls back to its default; end to end, a
malformed (non-object) body yields a successful all-defaults TeamDetail,
not an error. -/
theorem claim_C8 :
    (∀ data : Json, data.isObj = false →
      get_team data = ⟨.num 0, .str "", .str "", .null⟩)
    ∧ (∀ fs : List (String × Json),
        (hasKey fs "teamId" = false → (get_team (.obj fs)).team_id = .num 0)
        ∧ (hasKey fs "teamName" = false → (get_team (.obj fs)).name = .str "")
        ∧ (hasKey fs "shortName" = false → (get_team (.obj fs)).short_name = .str "")
        ∧ (hasKey fs "teamIconUrl" = false → (get_team (.obj fs)).icon_url = .null))
    ∧ (∀ (payload : List (String × Json)) (pv : PayloadV) (data : Json),
        validatePayload .getTeamOp payload = some pv → data.isObj = false →
        execute_operation "GetTeam" payload (.ok data) =
          .success (.obj [("team", .obj [("id", .num 0), ("name", .str ""),
            ("short_name", .str ""), ("icon_url", .null)])])) := by
  refine ⟨?_, ?_, ?_⟩
  · intro data h
    cases data <;> first | rfl | simp [Json.isObj] at h
  · intro fs
    exact ⟨fun h => jsonGet_not_found fs "teamId" _ h,
           fun h => jsonGet_not_found fs "teamName" _ h,
           fun h => jsonGet_not_found fs "shortName" _ h,
           fun h => jsonGet_not_found fs "teamIconUrl" _ h⟩
  · intro payload pv data hpv hobj
    have hteam : get_team data = ⟨.num 0, .str "", .str "", .null⟩ := by
      cases data <;> first | rfl | simp [Json.isObj] at hobj
    have hop : parseOp "GetTeam" = some OpType.getTeamOp := rfl
    simp only [execute_operation, hop, executeKnown, hpv, executeValidated,
      providerCall, hteam, normalizeStage, normalizeResponse, validateTeamDetail,
      asInt, asStr, asOptStr]
    rfl

/-- C8 witness: a non-object body produces the all-defaults record and a
successful all-defaults response. -/
theorem claim_C8_witness :
    get_team (.str "nope") = ⟨.num 0, .str "", .str "", .null⟩
    ∧ execute_operation "GetTeam" [("team_id", .num 5)] (.ok (.str "nope")) =
        .success (.obj [("team", .obj [("id", .num 0), ("name", .str ""),
          ("short_name", .str ""), ("icon_url", .null)])]) :=
  ⟨claim_C8.1 (.str "nope") rfl,
   claim_C8.2.2 [("team_id", .num 5)] (.idPayload 5) (.str "nope") rfl rfl⟩

/-- C9: every match mapped by `get_league_matches` carries the requested
league shortcut in its `league_name` slot, while `get_match` takes
`league_name` from the upstream object's `leagueName` field. -/
theorem claim_C9 :
    (∀ (sc se : String) (data : Json) (m : RawMatch),
        m ∈ get_league_matches sc se data → m.league_name = .str sc)
    ∧ (∀ (data : Json) (fs : List (String × Json)) (m : RawMatch),
        resolveMatch data = some (.obj fs) → get_match data = .ok m →
        m.league_name = jsonGet fs "leagueName" (.str "")) := by
  constructor
  · intro sc se data m hm
    cases data <;> simp [get_league_matches] at hm
    obtain ⟨fs, _, rfl⟩ := hm
    rfl
  · intro data fs m hres hok
    unfold get_match at hok
    rw [hres] at hok
    by_cases ht : data.truthy = true
    · simp only [ht, Bool.not_true, Bool.false_eq_true, if_false] at hok
      cases fs with
      | nil => simp [Json.truthy] at hok
      | cons p fs' =>
        simp [Json.truthy] at hok
        rw [← hok]
        rfl
    · simp [Bool.not_eq_true] at ht
      simp [ht] at hok

/-- C9 witness: a singleton league-matches response carries the shortcut. -/
theorem claim_C9_witness :
    (buildRawMatch (.str "bl1") []).league_name = .str "bl1" :=
  claim_C9.1 "bl1" "2024" (.arr [.obj []]) (buildRawMatch (.str "bl1") [])
    (by simp [get_league_matches, dictElems])

/-- C5 counterexample: a match whose `matchResults` is the non-empty list
`[7]` has results, yet the mapped status is "scheduled", not
"in_progress" (nor "finished") as the claim would require, because the
last element is not an object. -/
theorem claim_C5_counterexample :
    (extractFinalScore [("matchResults", Json.arr [Json.num 7])]).match_status
      = "scheduled"
    ∧ ¬ ((extractFinalScore [("matchResults", Json.arr [Json.num 7])]).match_status
          = "finished"
        ∨ (extractFinalScore [("matchResults", Json.arr [Json.num 7])]).match_status
          = "in_progress") := by
  constructor
  · rfl
  · intro h
    rcases h with h | h <;> simp [extractFinalScore, jsonGet, defaultScore] at h

/-- C5 amended: in the `GetLeagueMatches` per-match mapping, an empty (or
absent) `matchResults` yields the 0-0 "scheduled" score; a non-empty
`matchResults` whose last element is an object yields that element's
score with status "finished" when the match's finished flag is truthy and
"in_progress" otherwise; a non-empty `matchResults` whose last element is
not an object keeps the 0-0 "scheduled" default. -/
theorem claim_C5 :
    ∀ (sc : String) (fs : List (String × Json)),
      (buildRawMatch (.str sc) fs).final_score = extractFinalScore fs
      ∧ (jsonGet fs "matchResults" (.arr []) = .arr [] →
          extractFinalScore fs = ⟨.num 0, .num 0, "scheduled"⟩)
      ∧ (∀ (l : List Json) (g : List (String × Json)),
          jsonGet fs "matchResults" (.arr []) = .arr l → l ≠ [] →
          l.getLastD .null = .obj g →
          extractFinalScore fs =
            ⟨jsonGet g "pointsTeam1" (.num 0), jsonGet g "pointsTeam2" (.num 0),
             if (jsonGet fs "matchIsFinished" .null).truthy then "finished"
             else "in_progress"⟩)
      ∧ (∀ l : List Json,
          jsonGet fs "matchResults" (.arr []) = .arr l → l ≠ [] →
          (∀ g, l.getLastD .null ≠ .obj g) →
          extractFinalScore fs = ⟨.num 0, .num 0, "scheduled"⟩) := by
  intro sc fs
  refine ⟨rfl, ?_, ?_, ?_⟩
  · intro h
    simp only [extractFinalScore, h]
    rfl
  · intro l g hmr hne hlast
    cases l with
    | nil => exact absurd rfl hne
    | cons x xs =>
      simp only [extractFinalScore, hmr, hlast]
  · intro l hmr hne hnobj
    cases l with
    | nil => exact absurd rfl hne
    | cons x xs =>
      simp only [extractFinalScore, hmr]
      cases hlast : (x :: xs).getLastD .null <;>
        first
          | rfl
          | exact absurd hlast (hnobj _)

/-- C5 witness: a single finished result with `matchIsFinished: true`
maps to that result's score with status "finished". -/
theorem claim_C5_witness :
    extractFinalScore
      [("matchResults", Json.arr [Json.obj
          [("pointsTeam1", Json.num 2), ("pointsTeam2", Json.num 1)]]),
       ("matchIsFinished", Json.bool true)]
      = ⟨Json.num 2, Json.num 1, "finished"⟩ :=
  (claim_C5 "bl1"
      [("matchResults", Json.arr [Json.obj
          [("pointsTeam1", Json.num 2), ("pointsTeam2", Json.num 1)]]),
       ("matchIsFinished", Json.bool true)]).2.2.1
    [Json.obj [("pointsTeam1", Json.num 2), ("pointsTeam2", Json.num 1)]]
    [("pointsTeam1", Json.num 2), ("pointsTeam2", Json.num 1)]
    rfl (by simp) rfl

/-- Under any of the claim's "not found" inputs, `get_match` raises
"Match not found". -/
theorem get_match_not_found (data : Json) (h : notFoundInput data) :
    get_match data = .error "Match not found" := by
  cases data with
  | null => rfl
  | bool b => cases b <;> rfl
  | num n =>
    simp only [get_match]
    split
    · rfl
    · rfl
  | str s =>
    simp only [get_match]
    split
    · rfl
    · rfl
  | arr xs =>
    cases xs with
    | nil => rfl
    | cons x xs' =>
      have hx : x.isObj = false := by
        rcases h with h | h | h | h
        · simp at h
        · simp at h
        · simp [Json.isArr] at h
        · exact h x rfl
      cases x <;> first | rfl | simp [Json.isObj] at hx
  | obj fs =>
    cases fs with
    | nil => rfl
    | cons p fs' =>
      exfalso
      rcases h with h | h | h | h
      · simp at h
      · simp at h
      · simp [Json.isObj] at h
      · have := h (.obj (p :: fs')) rfl
        simp [Json.isObj] at this

/-- C6: any `GetMatch` execution whose upstream body is empty, neither
array nor object, or resolves to a non-object element returns a
structured UPSTREAM_ERROR result carrying the "Match not found" message
(no crash); in particular an upstream response of `[]` does. -/
theorem claim_C6 :
    ∀ (payload : List (String × Json)) (pv : PayloadV) (data : Json),
      validatePayload .getMatchOp payload = some pv →
      notFoundInput data →
      execute_operation "GetMatch" payload (.ok data) =
        .failure "Upstream API failed" "UPSTREAM_ERROR"
          (.obj [("message", .str "Match not found")]) := by
  intro payload pv data hpv h
  have hm := get_match_not_found data h
  have hop : parseOp "GetMatch" = some OpType.getMatchOp := rfl
  simp only [execute_operation, hop, executeKnown, hpv, executeValidated,
    providerCall, hm, Except.map]

/-- C6 witness: the empty-array upstream body yields UPSTREAM_ERROR. -/
theorem claim_C6_witness :
    execute_operation "GetMatch" [("match_id", Json.num 1)] (.ok (.arr [])) =
      .failure "Upstream API failed" "UPSTREAM_ERROR"
        (.obj [("message", .str "Match not found")]) :=
  claim_C6 [("match_id", .num 1)] (.idPayload 1) (.arr []) rfl (Or.inl rfl)

/-- One `session.request` consumes at most `fuel` wire attempts. -/
theorem sessionLoop_consumed_le (wire : Nat → HttpOutcome) :
    ∀ (fuel idx : Nat), (sessionLoop wire idx fuel).2 ≤ fuel := by
  intro fuel
  induction fuel with
  | zero => intro idx; simp [sessionLoop]
  | succ f ih =>
    intro idx
    cases hw : wire idx with
    | resp s b =>
      simp only [sessionLoop, hw]
      by_cases h : (retryableStatus s && decide (0 < f)) = true
      · rw [if_pos h]
        show (sessionLoop wire (idx + 1) f).2 + 1 ≤ f + 1
        have := ih (idx + 1)
        omega
      · rw [if_neg h]
        show (1 : Nat) ≤ f + 1
        omega
    | connError m =>
      simp only [sessionLoop, hw]
      by_cases h : (decide (0 < f)) = true
      · rw [if_pos h]
        show (sessionLoop wire (idx + 1) f).2 + 1 ≤ f + 1
        have := ih (idx + 1)
        omega
      · rw [if_neg h]
        show (1 : Nat) ≤ f + 1
        omega

/-- Bounds on the wire-level loop: at most `fuel` session calls and at
most `3 * fuel` wire attempts. -/
theorem makeRequestWireAux_bounds (p : RetryPolicy) (wire : Nat → HttpOutcome) :
    ∀ (fuel idx attempt : Nat),
      (makeRequestWireAux p wire idx attempt fuel).sessionCalls ≤ fuel
      ∧ (makeRequestWireAux p wire idx attempt fuel).wireAttempts ≤ 3 * fuel := by
  intro fuel
  induction fuel with
  | zero => intro idx attempt; simp [makeRequestWireAux]
  | succ f ih =>
    intro idx attempt
    have hs : (sessionRequest wire idx).2 ≤ 3 := sessionLoop_consumed_le wire 3 idx
    cases hr : (sessionRequest wire idx).1 with
    | resp code body =>
      simp only [makeRequestWireAux, hr]
      by_cases h200 : (code == 200) = true
      · rw [if_pos h200]
        constructor
        · show (1 : Nat) ≤ f + 1
          omega
        · show (sessionRequest wire idx).2 ≤ 3 * (f + 1)
          omega
      · by_cases hretry : (retryableStatus code && decide (attempt < p.max_retries)) = true
        · rw [if_neg h200, if_pos hretry]
          obtain ⟨ih1, ih2⟩ := ih (idx + (sessionRequest wire idx).2) (attempt + 1)
          constructor
          · show (makeRequestWireAux p wire (idx + (sessionRequest wire idx).2)
                (attempt + 1) f).sessionCalls + 1 ≤ f + 1
            omega
          · show (makeRequestWireAux p wire (idx + (sessionRequest wire idx).2)
                (attempt + 1) f).wireAttempts + (sessionRequest wire idx).2 ≤ 3 * (f + 1)
            omega
        · rw [if_neg h200, if_neg hretry]
          constructor
          · show (1 : Nat) ≤ f + 1
            omega
          · show (sessionRequest wire idx).2 ≤ 3 * (f + 1)
            omega
    | exn e =>
      simp only [makeRequestWireAux, hr]
      by_cases hretry : (decide (attempt < p.max_retries)) = true
      · rw [if_pos hretry]
        obtain ⟨ih1, ih2⟩ := ih (idx + (sessionRequest wire idx).2) (attempt + 1)
        constructor
        · show (makeRequestWireAux p wire (idx + (sessionRequest wire idx).2)
              (attempt + 1) f).sessionCalls + 1 ≤ f + 1
          omega
        · show (makeRequestWireAux p wire (idx + (sessionRequest wire idx).2)
              (attempt + 1) f).wireAttempts + (sessionRequest wire idx).2 ≤ 3 * (f + 1)
          omega
      · rw [if_neg hretry]
        constructor
        · show (1 : Nat) ≤ f + 1
          omega
        · show (sessionRequest wire idx).2 ≤ 3 * (f + 1)
          omega

/-- C1 amended: per `_make_request` invocation the retry loop performs at
most `max_retries + 1` `session.request` invocations, and — because the
mounted `HTTPAdapter` carries `Retry(total=2)` — at most
`3 * (max_retries + 1)` HTTP attempts on the wire, for every
configuration and every sequence of wire outcomes. -/
theorem claim_C1 :
    ∀ (p : RetryPolicy) (wire : Nat → HttpOutcome),
      (makeRequestWire p wire).sessionCalls ≤ p.max_retries + 1
      ∧ (makeRequestWire p wire).wireAttempts ≤ 3 * (p.max_retries + 1) :=
  fun p wire => makeRequestWireAux_bounds p wire (p.max_retries + 1) 0 0

/-- C1 counterexample: with `max_retries = 0` (and the default delays)
and an upstream that always answers 503 on the wire, one `_make_request`
performs 3 HTTP attempts — the session-level urllib3 `Retry(total=2)`
retries twice inside the single loop attempt — exceeding
`max_retries + 1 = 1`. -/
theorem claim_C1_counterexample :
    (makeRequestWire ⟨0, 1, 30, 2, 1 / 10⟩ (fun _ => .resp 503 .null)).wireAttempts = 3
    ∧ ¬ ((makeRequestWire ⟨0, 1, 30, 2, 1 / 10⟩
          (fun _ => .resp 503 .null)).wireAttempts ≤ 0 + 1) := by
  constructor
  · rfl
  · intro h
    have h3 : (makeRequestWire ⟨0, 1, 30, 2, 1 / 10⟩
        (fun _ => .resp 503 .null)).wireAttempts = 3 := rfl
    rw [h3] at h
    omega

/-- C2: with `RetryPolicy(max_retries=3, base_delay=1, multiplier=2,
max_delay=30, jitter=0)` and an upstream answering 503 on the first three
loop attempts and 200 on the fourth, `_make_request` performs exactly 4
attempts, sleeps exactly 1, 2, 4 seconds between consecutive attempts,
and returns the parsed 200 body; and in general the computed delay before
retrying attempt i is `min(base_delay * multiplier^i, max_delay)`, the
jitter magnitude is at most `jitter_range` times that delay, and the
slept time is that sum floored at 0. -/
theorem claim_C2 :
    (∀ body : Json,
      makeRequest ⟨3, 1, 30, 2, 0⟩
        (fun i => if i < 3 then .status 503 .null else .status 200 body)
        (fun _ => 0)
      = ⟨.success body, 4, [1, 2, 4]⟩)
    ∧ (∀ (p : RetryPolicy) (i : Nat) (j : ℚ),
        |j| ≤ p.jitter_range → 0 ≤ p.base_delay → 0 ≤ p.backoff_multiplier →
        0 ≤ p.max_delay →
        backoffDelay p i = min (p.base_delay * p.backoff_multiplier ^ i) p.max_delay
        ∧ |j * backoffDelay p i| ≤ p.jitter_range * backoffDelay p i
        ∧ sleepTime p i j = max 0 (backoffDelay p i + j * backoffDelay p i)) := by
  constructor
  · intro body
    have e0 : sleepTime ⟨3, 1, 30, 2, 0⟩ 0 0 = 1 := by
      simp only [sleepTime, backoffDelay]
      norm_num
    have e1 : sleepTime ⟨3, 1, 30, 2, 0⟩ 1 0 = 2 := by
      simp only [sleepTime, backoffDelay]
      norm_num
    have e2 : sleepTime ⟨3, 1, 30, 2, 0⟩ 2 0 = 4 := by
      simp only [sleepTime, backoffDelay]
      norm_num
    norm_num [makeRequest, makeRequestAux, retryableStatus, e0, e1, e2]
  · intro p i j hj hb hm hd
    have hdelay : 0 ≤ backoffDelay p i :=
      le_min (mul_nonneg hb (pow_nonneg hm i)) hd
    refine ⟨rfl, ?_, rfl⟩
    rw [abs_mul, abs_of_nonneg hdelay]
    exact mul_le_mul_of_nonneg_right hj hdelay

/-- C2 witness: the backoff formula at the scenario policy, attempt 0,
zero jitter. -/
theorem claim_C2_witness :
    backoffDelay ⟨3, 1, 30, 2, 0⟩ 0
        = min ((1 : ℚ) * 2 ^ (0 : Nat)) 30
    ∧ |(0 : ℚ) * backoffDelay ⟨3, 1, 30, 2, 0⟩ 0|
        ≤ 0 * backoffDelay ⟨3, 1, 30, 2, 0⟩ 0
    ∧ sleepTime ⟨3, 1, 30, 2, 0⟩ 0 0
        = max 0 (backoffDelay ⟨3, 1, 30, 2, 0⟩ 0 + 0 * backoffDelay ⟨3, 1, 30, 2, 0⟩ 0) :=
  claim_C2.2 ⟨3, 1, 30, 2, 0⟩ 0 0 (by simp) (by simp) (by simp) (by simp)

/-- A normalized response body is a one-key object under the raw
response's output key. -/
theorem normalizeResponse_shape (r : RawResponse) (b : Json)
    (h : normalizeResponse r = some b) : ∃ v, b = .obj [(rawKey r, v)] := by
  cases r with
  | leaguesR xs =>
    have h' : (xs.mapM validateLeagueSummary).bind
        (fun ls => some (Json.obj [("leagues", Json.arr (ls.map LeagueSummaryN.dump))]))
        = some b := h
    cases hm : xs.mapM validateLeagueSummary with
    | none => rw [hm] at h'; simp at h'
    | some ls =>
      rw [hm] at h'
      simp at h'
      exact ⟨_, h'.symm⟩
  | matchesR xs =>
    have h' : (xs.mapM validateMatchDetail).bind
        (fun ms => some (Json.obj [("matches", Json.arr (ms.map MatchDetailN.dump))]))
        = some b := h
    cases hm : xs.mapM validateMatchDetail with
    | none => rw [hm] at h'; simp at h'
    | some ms =>
      rw [hm] at h'
      simp at h'
      exact ⟨_, h'.symm⟩
  | teamR t =>
    have h' : (validateTeamDetail t).bind
        (fun tv => some (Json.obj [("team", tv.dump)])) = some b := h
    cases hm : validateTeamDetail t with
    | none => rw [hm] at h'; simp at h'
    | some tv =>
      rw [hm] at h'
      simp at h'
      exact ⟨_, h'.symm⟩
  | matchR m =>
    have h' : (validateMatchDetail m).bind
        (fun mv => some (Json.obj [("match", mv.dump)])) = some b := h
    cases hm : validateMatchDetail m with
    | none => rw [hm] at h'; simp at h'
    | some mv =>
      rw [hm] at h'
      simp at h'
      exact ⟨_, h'.symm⟩

/-- A successful provider call wraps its record under the operation's
declared output key. -/
theorem providerCall_key (op : OpType) (pv : PayloadV) (upstream : Except String Json)
    (raw : RawResponse) (h : providerCall op pv upstream = .ok raw) :
    rawKey raw = outputKey op := by
  cases upstream with
  | error m => simp [providerCall] at h
  | ok data =>
    cases op with
    | listLeaguesOp =>
      simp [providerCall] at h
      rw [← h]
      rfl
    | getLeagueMatchesOp =>
      cases pv <;> simp [providerCall] at h
      rw [← h]
      rfl
    | getTeamOp =>
      simp [providerCall] at h
      rw [← h]
      rfl
    | getMatchOp =>
      cases hg : get_match data with
      | error e => simp [providerCall, hg, Except.map] at h
      | ok m =>
        simp [providerCall, hg, Except.map] at h
        rw [← h]
        rfl

/-- C10: every `execute_operation` result is either an error dict whose
code is one of the four stable codes, or a successful normalized response
whose only top-level key is the operation's declared output key — never
an "error" key. -/
theorem claim_C10 :
    ∀ (opStr : String) (payload : List (String × Json)) (upstream : Except String Json),
      (∃ e c d, execute_operation opStr payload upstream = .failure e c d
        ∧ (c = "UNKNOWN_OPERATION" ∨ c = "VALIDATION_ERROR"
          ∨ c = "UPSTREAM_ERROR" ∨ c = "INTERNAL_ERROR"))
      ∨ (∃ op body, parseOp opStr = some op
        ∧ execute_operation opStr payload upstream = .success body
        ∧ topKeys body = [outputKey op]
        ∧ ¬ "error" ∈ topKeys body) := by
  intro opStr payload upstream
  cases hop : parseOp opStr with
  | none =>
    have he : execute_operation opStr payload upstream =
        .failure ("Unknown operationType: " ++ opStr) "UNKNOWN_OPERATION"
          (.obj [("valid_operations", .arr (validOperations.map Json.str))]) := by
      simp [execute_operation, hop]
    exact Or.inl ⟨_, _, _, he, Or.inl rfl⟩
  | some op =>
    cases hv : validatePayload op payload with
    | none =>
      have he : execute_operation opStr payload upstream =
          .failure "Payload validation failed" "VALIDATION_ERROR"
            (.obj [("validation_errors", .arr [])]) := by
        simp [execute_operation, hop, executeKnown, hv]
      exact Or.inl ⟨_, _, _, he, Or.inr (Or.inl rfl)⟩
    | some pv =>
      cases hp : providerCall op pv upstream with
      | error m =>
        have he : execute_operation opStr payload upstream =
            .failure "Upstream API failed" "UPSTREAM_ERROR"
              (.obj [("message", .str m)]) := by
          simp [execute_operation, hop, executeKnown, hv, executeValidated, hp]
        exact Or.inl ⟨_, _, _, he, Or.inr (Or.inr (Or.inl rfl))⟩
      | ok raw =>
        cases hn : normalizeResponse raw with
        | none =>
          have he : execute_operation opStr payload upstream =
              .failure "Internal response normalization error" "INTERNAL_ERROR"
                (.obj [("message", .str "Provider response format unexpected")]) := by
            simp [execute_operation, hop, executeKnown, hv, executeValidated, hp,
              normalizeStage, hn]
          exact Or.inl ⟨_, _, _, he, Or.inr (Or.inr (Or.inr rfl))⟩
        | some body =>
          refine Or.inr ⟨op, body, rfl, ?_, ?_, ?_⟩
          · simp [execute_operation, hop, executeKnown, hv, executeValidated, hp,
              normalizeStage, hn]
          · obtain ⟨v, rfl⟩ := normalizeResponse_shape raw body hn
            have hk := providerCall_key op pv upstream raw hp
            simp [topKeys, hk]
          · obtain ⟨v, rfl⟩ := normalizeResponse_shape raw body hn
            have hk := providerCall_key op pv upstream raw hp
            simp only [topKeys, List.map, hk]
            cases op <;> simp [outputKey]

/-- Dumped `date_time` values satisfy the `Union[datetime, str]` field. -/
theorem dateLike_dump (d : DateVal) : Json.isDateLike d.dump = true := by
  cases d <;> rfl

/-- A dumped TeamDetail satisfies every required TeamDetail field. -/
theorem teamConforms_dump (t : TeamDetailN) : teamConforms t.dump = true := rfl

/-- A dumped MatchScore satisfies every required MatchScore field. -/
theorem scoreConforms_dump (sc : MatchScoreN) : scoreConforms sc.dump = true := rfl

/-- A dumped LeagueSummary satisfies every required LeagueSummary field. -/
theorem leagueConforms_dump (l : LeagueSummaryN) : leagueConforms l.dump = true := rfl

/-- A dumped MatchDetail satisfies every required MatchDetail field. -/
theorem matchConforms_dump (m : MatchDetailN) : matchConforms m.dump = true := by
  cases m with
  | mk i ln dt th ta sc fin => cases dt <;> rfl

/-- Mapping a conforming dump over a list yields a conforming array. -/
theorem allConform_map {α : Type} (p : Json → Bool) (f : α → Json)
    (hf : ∀ a, p (f a) = true) (xs : List α) :
    allConform p (.arr (xs.map f)) = true := by
  simp only [allConform, List.all_eq_true]
  intro x hx
  rw [List.mem_map] at hx
  obtain ⟨a, _, rfl⟩ := hx
  exact hf a

/-- C7: a normalization failure always surfaces as INTERNAL_ERROR (never
UPSTREAM_ERROR), and every successful `execute_operation` response body
satisfies every required field of the operation's declared output schema
— a partially-filled record is never returned. -/
theorem claim_C7 :
    (∀ (opStr : String) (payload : List (String × Json)) (upstream : Except String Json)
        (op : OpType) (pv : PayloadV) (raw : RawResponse),
        parseOp opStr = some op → validatePayload op payload = some pv →
        providerCall op pv upstream = .ok raw → normalizeResponse raw = none →
        execute_operation opStr payload upstream =
          .failure "Internal response normalization error" "INTERNAL_ERROR"
            (.obj [("message", .str "Provider response format unexpected")]))
    ∧ (∀ (opStr : String) (payload : List (String × Json)) (upstream : Except String Json)
        (body : Json),
        execute_operation opStr payload upstream = .success body →
        ∃ op, parseOp opStr = some op ∧ responseConforms op body = true) := by
  constructor
  · intro opStr payload upstream op pv raw hop hv hp hn
    simp [execute_operation, hop, executeKnown, hv, executeValidated, hp,
      normalizeStage, hn]
  · intro opStr payload upstream body hsucc
    cases hop : parseOp opStr with
    | none => simp [execute_operation, hop] at hsucc
    | some op =>
      cases hv : validatePayload op payload with
      | none => simp [execute_operation, hop, executeKnown, hv] at hsucc
      | some pv =>
        cases hp : providerCall op pv upstream with
        | error m =>
          simp [execute_operation, hop, executeKnown, hv, executeValidated, hp] at hsucc
        | ok raw =>
          cases hn : normalizeResponse raw with
          | none =>
            simp [execute_operation, hop, executeKnown, hv, executeValidated, hp,
              normalizeStage, hn] at hsucc
          | some b =>
            have hb : b = body := by
              have hx := hsucc
              simp [execute_operation, hop, executeKnown, hv, executeValidated, hp,
                normalizeStage, hn] at hx
              exact hx
            subst hb
            refine ⟨op, rfl, ?_⟩
            cases upstream with
            | error m => simp [providerCall] at hp
            | ok data =>
              cases op with
              | listLeaguesOp =>
                have hraw : raw = .leaguesR (list_leagues data) := by
                  simp [providerCall] at hp
                  exact hp.symm
                subst hraw
                have h' : ((list_leagues data).mapM validateLeagueSummary).bind
                    (fun ls => some (Json.obj
                      [("leagues", Json.arr (ls.map LeagueSummaryN.dump))])) = some b := hn
                cases hm : (list_leagues data).mapM validateLeagueSummary with
                | none => rw [hm] at h'; simp at h'
                | some ls =>
                  rw [hm] at h'
                  simp at h'
                  rw [← h']
                  exact allConform_map _ _ leagueConforms_dump ls
              | getLeagueMatchesOp =>
                cases pv with
                | leagueMatchesPayload sc se =>
                  have hraw : raw = .matchesR (get_league_matches sc se data) := by
                    simp [providerCall] at hp
                    exact hp.symm
                  subst hraw
                  have h' : ((get_league_matches sc se data).mapM validateMatchDetail).bind
                      (fun ms => some (Json.obj
                        [("matches", Json.arr (ms.map MatchDetailN.dump))])) = some b := hn
                  cases hm : (get_league_matches sc se data).mapM validateMatchDetail with
                  | none => rw [hm] at h'; simp at h'
                  | some ms =>
                    rw [hm] at h'
                    simp at h'
                    rw [← h']
                    exact allConform_map _ _ matchConforms_dump ms
                | emptyPayload => simp [providerCall] at hp
                | idPayload i => simp [providerCall] at hp
              | getTeamOp =>
                have hraw : raw = .teamR (get_team data) := by
                  simp [providerCall] at hp
                  exact hp.symm
                subst hraw
                have h' : (validateTeamDetail (get_team data)).bind
                    (fun tv => some (Json.obj [("team", tv.dump)])) = some b := hn
                cases hm : validateTeamDetail (get_team data) with
                | none => rw [hm] at h'; simp at h'
                | some tv =>
                  rw [hm] at h'
                  simp at h'
                  rw [← h']
                  exact teamConforms_dump tv
              | getMatchOp =>
                cases hg : get_match data with
                | error e => simp [providerCall, hg, Except.map] at hp
                | ok mm =>
                  have hraw : raw = .matchR mm := by
                    simp [providerCall, hg, Except.map] at hp
                    exact hp.symm
                  subst hraw
                  have h' : (validateMatchDetail mm).bind
                      (fun mv => some (Json.obj [("match", mv.dump)])) = some b := hn
                  cases hm : validateMatchDetail mm with
                  | none => rw [hm] at h'; simp at h'
                  | some mv =>
                    rw [hm] at h'
                    simp at h'
                    rw [← h']
                    exact matchConforms_dump mv

/-- C7 witness: a team record whose upstream id is a string fails int
validation, and the pipeline surfaces INTERNAL_ERROR. -/
theorem claim_C7_witness :
    execute_operation "GetTeam" [("team_id", Json.num 7)]
        (.ok (.obj [("teamId", Json.str "oops")])) =
      .failure "Internal response normalization error" "INTERNAL_ERROR"
        (.obj [("message", .str "Provider response format unexpected")]) :=
  claim_C7.1 "GetTeam" [("team_id", Json.num 7)] (.ok (.obj [("teamId", Json.str "oops")]))
    .getTeamOp (.idPayload 7) (.teamR (get_team (.obj [("teamId", Json.str "oops")])))
    rfl rfl rfl rfl

/-- Invariant of rate-limiter traces: admitted times never exceed the
trace clock, the recorded list never exceeds `max_requests` entries, and
the admitted times still inside the window at any instant `now ≥ t` form
a sublist of the recorded list (pruning only ever removes out-of-window
entries). -/
theorem grantTrace_inv {rl : RateLimiter} {t : ℚ} {adm s : List ℚ}
    (h : GrantTrace rl t adm s) :
    (∀ a ∈ adm, a ≤ t) ∧ s.length ≤ rl.max_requests ∧
    ∀ now : ℚ, t ≤ now →
      List.Sublist (adm.filter (fun a => decide (now - a < rl.time_window))) s := by
  induction h with
  | nil t0 => exact ⟨by simp, by simp, fun now _ => by simp⟩
  | grant t t' adm s hprev hle hlt ih =>
    obtain ⟨ih1, ih2, ih3⟩ := ih
    refine ⟨?_, ?_, ?_⟩
    · intro a ha
      rcases List.mem_append.mp ha with ha | ha
      · exact le_trans (ih1 a ha) hle
      · rw [List.mem_singleton] at ha
        exact le_of_eq ha
    · rw [List.length_append, List.length_singleton]
      omega
    · intro now hnow
      rw [List.filter_append]
      have h1 := ih3 now (le_trans hle hnow)
      have h2 : ∀ a ∈ adm.filter (fun a => decide (now - a < rl.time_window)),
          (fun a => decide (t' - a < rl.time_window)) a = true := by
        intro a ha
        have hmem := List.mem_filter.mp ha
        have hlt2 : now - a < rl.time_window := of_decide_eq_true hmem.2
        have hts : t' - a ≤ now - a := by linarith
        exact decide_eq_true (lt_of_le_of_lt hts hlt2)
      have hsub : List.Sublist (adm.filter (fun a => decide (now - a < rl.time_window)))
          (prune rl.time_window t' s) := by
        have h3 := List.Sublist.filter (fun a => decide (t' - a < rl.time_window)) h1
        rw [List.filter_eq_self.mpr h2] at h3
        exact h3
      by_cases hp : decide (now - t' < rl.time_window) = true
      · have he : List.filter (fun a => decide (now - a < rl.time_window)) [t'] = [t'] := by
          simp [hp]
        rw [he]
        exact List.Sublist.append hsub (List.Sublist.refl _)
      · have he : List.filter (fun a => decide (now - a < rl.time_window)) [t'] = [] := by
          simp [hp]
        rw [he, List.append_nil]
        exact hsub.trans (List.sublist_append_left _ _)
  | pruneOnly t t' adm s hprev hle ih =>
    obtain ⟨ih1, ih2, ih3⟩ := ih
    refine ⟨fun a ha => le_trans (ih1 a ha) hle,
      le_trans (List.length_filter_le _ _) ih2, ?_⟩
    intro now hnow
    have h1 := ih3 now (le_trans hle hnow)
    have h2 : ∀ a ∈ adm.filter (fun a => decide (now - a < rl.time_window)),
        (fun a => decide (t' - a < rl.time_window)) a = true := by
      intro a ha
      have hmem := List.mem_filter.mp ha
      have hlt2 : now - a < rl.time_window := of_decide_eq_true hmem.2
      have hts : t' - a ≤ now - a := by linarith
      exact decide_eq_true (lt_of_le_of_lt hts hlt2)
    have h3 := List.Sublist.filter (fun a => decide (t' - a < rl.time_window)) h1
    rw [List.filter_eq_self.mpr h2] at h3
    exact h3

/-- No trailing window of length `time_window` ever contains more than
`max_requests` admitted acquisitions. -/
theorem grantTrace_window {rl : RateLimiter} {t : ℚ} {adm s : List ℚ}
    (h : GrantTrace rl t adm s) (y : ℚ) :
    (adm.filter (fun a => decide (y - a < rl.time_window) && decide (a ≤ y))).length
      ≤ rl.max_requests := by
  induction h with
  | nil t0 => simp
  | grant t t' adm s hprev hle hlt ih =>
    by_cases hty : t' ≤ y
    · have hinv := grantTrace_inv (GrantTrace.grant t t' adm s hprev hle hlt)
      have hfe : (adm ++ [t']).filter
            (fun a => decide (y - a < rl.time_window) && decide (a ≤ y))
          = (adm ++ [t']).filter (fun a => decide (y - a < rl.time_window)) := by
        apply List.filter_congr
        intro a ha
        have hat : a ≤ t' := hinv.1 a ha
        have hay : decide (a ≤ y) = true := decide_eq_true (le_trans hat hty)
        rw [hay, Bool.and_true]
      rw [hfe]
      exact le_trans (List.Sublist.length_le (hinv.2.2 y hty)) hinv.2.1
    · have hfe : (adm ++ [t']).filter
            (fun a => decide (y - a < rl.time_window) && decide (a ≤ y))
          = adm.filter (fun a => decide (y - a < rl.time_window) && decide (a ≤ y)) := by
        rw [List.filter_append]
        have hd : decide (t' ≤ y) = false := decide_eq_false hty
        simp [hd]
      rw [hfe]
      exact ih
  | pruneOnly t t' adm s hprev hle ih => exact ih

/-- C3: along every admission trace the recorded-timestamp state never
holds more than `max_requests` in-window entries, and no trailing window
of length `time_window` admits more than `max_requests` acquisitions; in
the concrete scenario (`max_requests = 2`, `time_window = 1`, two
admissions at t = 0) a third `acquire` cannot be admitted at any instant
before t = 1, the computed wait is 1.1 s, and at t = 1.1 the admission
check passes. -/
theorem claim_C3 :
    (∀ (rl : RateLimiter) (t : ℚ) (adm s : List ℚ), GrantTrace rl t adm s →
      (∀ now : ℚ,
        (s.filter (fun a => decide (now - a < rl.time_window))).length ≤ rl.max_requests)
      ∧ (∀ y : ℚ,
        (adm.filter (fun a => decide (y - a < rl.time_window) && decide (a ≤ y))).length
          ≤ rl.max_requests))
    ∧ (∀ t' : ℚ, t' < 1 → ¬ (prune 1 t' [0, 0]).length < 2)
    ∧ rlSleepTime ⟨2, 1⟩ 0 [0, 0] = 11 / 10
    ∧ (prune 1 (11 / 10) [0, 0]).length < 2 := by
  refine ⟨?_, ?_, ?_, ?_⟩
  · intro rl t adm s h
    exact ⟨fun now => le_trans (List.length_filter_le _ _) (grantTrace_inv h).2.1,
      fun y => grantTrace_window h y⟩
  · intro t' ht
    have hp2 : prune 1 t' [0, 0] = [0, 0] := by
      apply List.filter_eq_self.mpr
      intro a ha
      have ha0 : a = 0 := by simpa using ha
      subst ha0
      exact decide_eq_true (by linarith)
    rw [hp2]
    simp
  · simp only [rlSleepTime]
    norm_num
  · have hp4 : prune 1 (11 / 10) [0, 0] = [] := by
      apply List.filter_eq_nil_iff.mpr
      intro a ha
      have ha0 : a = 0 := by simpa using ha
      subst ha0
      simp only [decide_eq_true_eq]
      norm_num
    rw [hp4]
    simp

/-- C3 witness: the trailing-window bound applied to a one-admission
trace of RateLimiter(max_requests=2, time_window=1). -/
theorem claim_C3_witness :
    (([0] : List ℚ).filter
        (fun a => decide ((0 : ℚ) - a < (1 : ℚ)) && decide (a ≤ (0 : ℚ)))).length ≤ 2 := by
  have h0 : GrantTrace ⟨2, 1⟩ 0 [] [] := GrantTrace.nil 0
  have h1 : GrantTrace ⟨2, 1⟩ 0 ([] ++ [0]) (prune 1 0 [] ++ [0]) :=
    GrantTrace.grant 0 0 [] [] h0 le_rfl (by simp [prune])
  have h2 : GrantTrace ⟨2, 1⟩ 0 [0] [0] := by simpa [prune] using h1
  exact (claim_C3.1 ⟨2, 1⟩ 0 [0] [0] h2).2 0

/-- One interleaving step preserves the blocked configuration: A keeps
the lock and stays inside sleep/re-acquire, B stays waiting at entry. -/
theorem blocked_step {s s' : LockSys} (hb : BlockedOnSelf s) (h : LockStep s s') :
    BlockedOnSelf s' := by
  obtain ⟨h1, h2, h3⟩ := hb
  cases h with
  | take i hn hp =>
    rw [h1] at hn
    exact absurd hn (by simp)
  | grantRelease i hh hp =>
    rw [h1] at hh
    injection hh with hi
    subst hi
    have hpa : s.pcA = AcqPc.holding := hp
    rcases h2 with h2 | h2 <;> rw [h2] at hpa <;> exact absurd hpa (by simp)
  | windowFull i hh hp =>
    rw [h1] at hh
    injection hh with hi
    subst hi
    have hpa : s.pcA = AcqPc.holding := hp
    rcases h2 with h2 | h2 <;> rw [h2] at hpa <;> exact absurd hpa (by simp)
  | wakeRetry i hp =>
    cases i with
    | true =>
      have hpb : s.pcB = AcqPc.sleeping := hp
      rw [h3] at hpb
      exact absurd hpb (by simp)
    | false =>
      exact ⟨h1, Or.inr rfl, h3⟩

/-- C4: once a caller sleeps in the full-window branch (which the code
enters while holding the non-reentrant lock), every reachable state keeps
it as the lock holder stuck in sleep/re-acquire — it never completes —
and the other caller never gets past awaiting the lock; this blocked
configuration is reachable from two callers starting at entry. -/
theorem claim_C4 :
    (∀ s s' : LockSys, BlockedOnSelf s → Relation.ReflTransGen LockStep s s' →
      BlockedOnSelf s' ∧ s'.pcA ≠ AcqPc.done ∧ s'.pcB = AcqPc.entry)
    ∧ Relation.ReflTransGen LockStep ⟨none, .entry, .entry⟩
        ⟨some false, .sleeping, .entry⟩ := by
  constructor
  · intro s s' hb hsteps
    have hb' : BlockedOnSelf s' := by
      induction hsteps with
      | refl => exact hb
      | tail hst step ih => exact blocked_step ih step
    refine ⟨hb', ?_, hb'.2.2⟩
    rcases hb'.2.1 with h | h <;> simp [h]
  · have st1 : LockStep ⟨none, .entry, .entry⟩ ⟨some false, .holding, .entry⟩ :=
      LockStep.take ⟨none, .entry, .entry⟩ false rfl (Or.inl rfl)
    have st2 : LockStep ⟨some false, .holding, .entry⟩ ⟨some false, .sleeping, .entry⟩ :=
      LockStep.windowFull ⟨some false, .holding, .entry⟩ false rfl rfl
    exact Relation.ReflTransGen.head st1 (Relation.ReflTransGen.single st2)

/-- C4 witness: the blocked configuration itself never completes and
keeps the other caller at entry. -/
theorem claim_C4_witness :
    (⟨some false, .sleeping, .entry⟩ : LockSys).pcA ≠ AcqPc.done
    ∧ (⟨some false, .sleeping, .entry⟩ : LockSys).pcB = AcqPc.entry :=
  ⟨(claim_C4.1 ⟨some false, .sleeping, .entry⟩ ⟨some false, .sleeping, .entry⟩
      ⟨rfl, Or.inl rfl, rfl⟩ Relation.ReflTransGen.refl).2.1,
   (claim_C4.1 ⟨some false, .sleeping, .entry⟩ ⟨some false, .sleeping, .entry⟩
      ⟨rfl, Or.inl rfl, rfl⟩ Relation.ReflTransGen.refl).2.2⟩

end ReverseProxy
